import Mathlib

/-!
Shallow embedding of `src/snowman.py` (the snowman arcade game).

External collaborators (pygame rendering, audio, image loading, the
geometric circle-collision test, the OS event pump and the random number
generator) are modelled as explicit inputs to the frame logic: random
draws become `Nat` parameters reduced modulo the size of the choice
space, the set of geometrically colliding landed pieces becomes an
explicit ordered list of piece ids, and keyboard events become a small
event datatype.  Everything else is translated directly from the source.
-/

namespace Snowman

/-! ## Constants (module-level constants of snowman.py) -/

def SCREEN_WIDTH : Int := 800
def SCREEN_HEIGHT : Int := 600
def GUTTER_LEFT : Int := 60
def GUTTER_RIGHT : Int := SCREEN_WIDTH - GUTTER_LEFT
def GUTTER_BOTTOM : Int := 70
def SPEED_MIN : Int := 6
def SPEED_MAX : Int := 16
def SPEED_BUMP : Int := 3
def SNOWMEN_MAX : Nat := 2
def CLUTTER : Int := 2
def MISSES_MAX : Int := 10
def POINTS : Int := 50

/-! ## Piece kinds

In the source a piece's kind is the string field `piece`, one of
`'heads'`, `'arms'`, `'legs'`; a landed piece that has received an
attachment is reassigned the string `'connected'`.  -/

inductive Kind where
  | heads
  | arms
  | legs
  | connected
deriving DecidableEq, Repr

/-- `self.piece in PIECES`: the `PIECES` dict has keys
`'heads', 'arms', 'legs'` (not `'connected'`). -/
def Kind.inPieces : Kind → Bool
  | .heads => true
  | .arms => true
  | .legs => true
  | .connected => false

/-- `list(PIECES.keys()).index(self.piece)`: dict insertion order gives
heads = 0, arms = 1, legs = 2.  Only evaluated under the
`self.piece in PIECES` guard, so the `connected` case is unreachable in
the embedded code paths; we give it the out-of-range value 3. -/
def kindIndex : Kind → Int
  | .heads => 0
  | .arms => 1
  | .legs => 2
  | .connected => 3

/-! ## Randomness

`random.randint(a, b)` returns a uniform integer in the inclusive range
`[a, b]`; we model the draw by an arbitrary `Nat` seed reduced modulo
the size of the range.  `random.choice(xs)` picks a uniform element of a
non-empty list; we model it by an index seed reduced modulo the length
(and `none` on the empty list, where Python would raise). -/

def randint (a b : Int) (r : Nat) : Int :=
  a + (r % (b - a + 1).toNat : Nat)

def listChoice {α : Type} (xs : List α) (r : Nat) : Option α :=
  match xs with
  | [] => none
  | x :: rest => some ((x :: rest).get ⟨r % (rest.length + 1), Nat.mod_lt _ (Nat.succ_pos _)⟩)

/-! ## Spawn candidate list (main, lines 448-468)

Built each frame when no piece is active, from the per-kind counters in
the `current` dict. -/

def buildPieceTypes (centipede : Bool) (heads arms legs : Int) : List Kind :=
  let pt : List Kind := if centipede then [.arms, .arms] else []
  let pt := if legs - heads < CLUTTER then pt ++ [.legs] else pt
  if centipede then
    let pt := if legs > heads then pt ++ List.replicate (legs - heads).toNat .heads else pt
    let pt := if legs == heads then pt ++ List.replicate 2 .legs else pt
    pt
  else
    let pt := if legs > arms then pt ++ List.replicate (legs - arms).toNat .arms else pt
    let pt := if arms > heads then pt ++ List.replicate (arms - heads).toNat .heads else pt
    pt

/-- The spawn-candidate rules as the specification words them, written as
the concatenation of the four ordered rule segments (for comparison with
`buildPieceTypes`, which mirrors the source's sequential appends). -/
def specSpawnRules (centipede : Bool) (heads arms legs : Int) : List Kind :=
  (if centipede then List.replicate 2 .arms else [])
    ++ (if legs - heads < CLUTTER then [.legs] else [])
    ++ (if centipede then
          (if legs > heads then List.replicate (legs - heads).toNat .heads else [])
            ++ (if legs == heads then List.replicate 2 .legs else [])
        else
          (if legs > arms then List.replicate (legs - arms).toNat .arms else [])
            ++ (if arms > heads then List.replicate (arms - heads).toNat .heads else []))

/-! ## The Piece sprite (class Piece)

A single structure models both the active falling piece and the landed
sprites kept in the `pieces` group, exactly as in the source where both
are `Piece` objects.  `pid` stands for the Python object identity (the
`connected` dict and `pieces.remove` are identity-keyed).  The sprite
width and the image layers play no role in the embedded logic; `height`
is the hit-box image's height, an external input. -/

inductive Status where
  | stuck
deriving DecidableEq, Repr

structure Piece where
  pid : Nat
  piece : Kind
  speed : Int
  height : Int
  x_pos : Int
  y_pos : Int
  x_inc : Int
  y_inc : Int
  limit : Int
  status : Option Status
deriving DecidableEq, Repr

/-- External inputs consumed by `Piece.__init__`: the two `random`
draws, the hit-box image height, and the `randint` seeds. -/
structure SpawnSeed where
  kindSeed : Nat
  height : Int
  xSeed : Nat
  limitSeed : Nat
deriving DecidableEq, Repr

/-- `Piece.__init__` (lines 254-286).  `none` when `pieces_possible` is
empty, where `random.choice` would raise. -/
def pieceInit (pieces_possible : List Kind) (speed0 : Int) (pid : Nat)
    (seed : SpawnSeed) : Option Piece :=
  (listChoice pieces_possible seed.kindSeed).map fun k =>
    let speed := if speed0 > SPEED_MAX then SPEED_MAX else speed0
    { pid := pid
      piece := k
      speed := speed
      height := seed.height
      x_inc := 0
      y_inc := speed
      x_pos := randint GUTTER_LEFT GUTTER_RIGHT seed.xSeed
      y_pos := Int.fdiv (-seed.height) 2
      limit := if k == Kind.legs then
                 SCREEN_HEIGHT - randint (Int.fdiv seed.height 2) seed.height seed.limitSeed
               else SCREEN_HEIGHT - GUTTER_BOTTOM
      status := none }

/-! ## Keyboard input (Piece.get_input, lines 288-316) -/

inductive PKey where
  | escape
  | keyP
  | space
  | down
  | left
  | right
  | other
deriving DecidableEq, Repr

inductive PEvent where
  | quit
  | keyDown (k : PKey)
  | keyUp (k : PKey)
deriving DecidableEq, Repr

def getInputStep (pg : Piece × Bool) (e : PEvent) : Piece × Bool :=
  let (p, go) := pg
  match e with
  | .quit => (p, true)
  | .keyDown k =>
      if k == PKey.escape then (p, true)
      else if k == PKey.keyP then (p, go)
      else if k == PKey.space || k == PKey.down then ({ p with y_inc := SPEED_MAX }, go)
      else if k == PKey.left then ({ p with x_inc := -p.speed * 2 }, go)
      else if k == PKey.right then ({ p with x_inc := p.speed * 2 }, go)
      else (p, go)
  | .keyUp k =>
      if p.x_inc < 0 && k == PKey.left then ({ p with x_inc := 0 }, go)
      else if p.x_inc > 0 && k == PKey.right then ({ p with x_inc := 0 }, go)
      else if k == PKey.space || k == PKey.down then ({ p with y_inc := p.speed }, go)
      else (p, go)

/-- `get_input`: folds the frame's event queue; returns the updated
piece and the `game_over` flag (initially `False` each frame). -/
def getInput (p : Piece) (events : List PEvent) : Piece × Bool :=
  events.foldl getInputStep (p, false)

/-! ## Physics update (Piece.update, lines 328-341, display excluded) -/

def pieceUpdate (p : Piece) : Piece :=
  let p :=
    if p.x_pos < GUTTER_LEFT then { p with x_pos := GUTTER_LEFT }
    else if p.x_pos > GUTTER_RIGHT then { p with x_pos := GUTTER_RIGHT }
    else p
  let p :=
    if p.piece.inPieces then
      let slow_zone := (4 - kindIndex p.piece) * GUTTER_BOTTOM
      if p.y_inc != 0 && p.y_pos > SCREEN_HEIGHT - slow_zone then
        { p with y_inc := p.speed }
      else p
    else p
  { p with x_pos := p.x_pos + p.x_inc, y_pos := p.y_pos + p.y_inc }

/-! ## The `connected` dict (attachment map, identity-keyed) -/

def dictLookup (m : List (Nat × Option Nat)) (k : Nat) : Option (Option Nat) :=
  match m with
  | [] => none
  | (k', v) :: rest => if k' == k then some v else dictLookup rest k

def dictAssign (m : List (Nat × Option Nat)) (k : Nat) (v : Option Nat) :
    List (Nat × Option Nat) :=
  match m with
  | [] => [(k, v)]
  | (k', v') :: rest => if k' == k then (k, v) :: rest else (k', v') :: dictAssign rest k v

/-! ## Game state (locals of main) -/

structure Current where
  heads : Int
  arms : Int
  legs : Int
  snowmen : Int
deriving DecidableEq, Repr

/-- `current[k]` (read).  The key `'connected'` is never looked up. -/
def Current.get (c : Current) : Kind → Int
  | .heads => c.heads
  | .arms => c.arms
  | .legs => c.legs
  | .connected => 0

/-- `current[k] += d`.  The active piece's kind is never `'connected'`,
so that case is unreachable. -/
def Current.add (c : Current) (k : Kind) (d : Int) : Current :=
  match k with
  | .heads => { c with heads := c.heads + d }
  | .arms => { c with arms := c.arms + d }
  | .legs => { c with legs := c.legs + d }
  | .connected => c

structure GameState where
  score : Int
  misses : Int
  current : Current
  connected : List (Nat × Option Nat)
  headsList : List Nat
  pieces : List Piece
  player : Option Piece
  game_over : Bool
  nextId : Nat
deriving DecidableEq, Repr

def initState : GameState :=
  { score := 0
    misses := 0
    current := { heads := 0, arms := 0, legs := 0, snowmen := 0 }
    connected := []
    headsList := []
    pieces := []
    player := none
    game_over := false
    nextId := 0 }

/-! ## Collision and attachment (main, lines 478-493)

The geometric test (`pygame.sprite.spritecollide` with the circle-ratio
filter) is external; the frame takes the ids of the geometrically
colliding landed sprites as an input, and the `hits` list is the group
filtered to those ids, in group (insertion) order. -/

def canAttach (centipede : Bool) (playerKind pieceKind : Kind) : Bool :=
  (playerKind == Kind.heads && pieceKind == Kind.arms)
    || (playerKind == Kind.arms && pieceKind == Kind.legs)
    || (centipede && playerKind == Kind.arms && pieceKind == Kind.arms)

/-- The `for piece in hits` loop's search: first hit satisfying the
attachment condition (the loop `break`s there). -/
def findAttach (centipede : Bool) (playerKind : Kind) (hits : List Piece) : Option Piece :=
  match hits with
  | [] => none
  | q :: rest =>
      if canAttach centipede playerKind q.piece then some q
      else findAttach centipede playerKind rest

/-- Lines 478-493: resolve the hit list, find the first attachable
landed piece, and apply the attachment effects (status, reclassify,
record edge, score). -/
def collideStep (centipede : Bool) (hitIds : List Nat) (pl : Piece) (s : GameState) :
    Piece × GameState :=
  match findAttach centipede pl.piece (s.pieces.filter fun r => hitIds.contains r.pid) with
  | none => (pl, s)
  | some q =>
      ({ pl with status := some Status.stuck },
       { s with
          pieces := s.pieces.map fun r =>
            if r.pid == q.pid then { r with piece := Kind.connected } else r
          connected := dictAssign s.connected pl.pid (some q.pid)
          score := s.score + POINTS })

/-! ## Snowman eviction (main, lines 506-511) -/

/-- `pieces.remove(sprite)`: removes the sprite from the group if
present (identity-based; pygame's remove is a no-op when absent). -/
def removeSprite (ps : List Piece) (i : Nat) : List Piece :=
  match ps with
  | [] => []
  | q :: rest => if q.pid == i then rest else q :: removeSprite rest i

/-- The `while head:` walk: follow the `connected` dict from the evicted
head down to the chain base (whose entry is `None`), removing each
visited sprite from the group.  `none` models a `KeyError` (or a cyclic
map, on which the Python loop would not terminate). -/
def evictWalk (m : List (Nat × Option Nat)) : Nat → Option Nat → List Piece →
    Option (List Piece)
  | _, none, ps => some ps
  | 0, some _, _ => none
  | fuel + 1, some h, ps =>
      match dictLookup m h with
      | none => none
      | some nxt => evictWalk m fuel nxt (removeSprite ps h)

/-- The ids visited by the eviction walk, in order (head, arms..., base
legs), computed from the attachment map alone. -/
def chainFrom (m : List (Nat × Option Nat)) : Nat → Option Nat → Option (List Nat)
  | _, none => some []
  | 0, some _ => none
  | fuel + 1, some h =>
      (dictLookup m h).bind fun nxt => (chainFrom m fuel nxt).map (h :: ·)

/-! ## Landing / snowman / miss resolution (main, lines 496-520) -/

def landStep (p : Piece) (s : GameState) : Option GameState :=
  if p.status == some Status.stuck || (p.piece == Kind.legs && p.y_pos > p.limit) then
    let p := { p with x_inc := 0, y_inc := 0 }
    if p.piece == Kind.legs then
      some { s with
              connected := dictAssign s.connected p.pid none
              pieces := s.pieces ++ [p]
              player := none }
    else if p.piece == Kind.heads then
      let hl := s.headsList ++ [p.pid]
      let ps := s.pieces ++ [p]
      let cur := { s.current with snowmen := s.current.snowmen + 1 }
      if hl.length > SNOWMEN_MAX then
        match hl with
        | [] => none
        | h :: rest =>
            (evictWalk s.connected (s.connected.length + 1) (some h) ps).map fun ps' =>
              { s with headsList := rest, pieces := ps', current := cur, player := none }
      else
        some { s with headsList := hl, pieces := ps, current := cur, player := none }
    else
      some { s with pieces := s.pieces ++ [p], player := none }
  else if p.piece != Kind.legs && p.y_pos > p.limit then
    some { s with
            current := s.current.add p.piece (-1)
            misses := s.misses + 1
            score := s.score - POINTS
            player := none }
  else
    some { s with player := some p }

/-! ## One iteration of the game loop (main, lines 443-526, rendering,
sound and clock excluded) -/

structure Config where
  centipede : Bool
  infinite : Bool
  speedRamp : Bool
deriving DecidableEq, Repr

structure FrameInput where
  spawnSeed : SpawnSeed
  events : List PEvent
  hitIds : List Nat
deriving DecidableEq, Repr

/-- Lines 448-474: when no piece is active, build the candidate list,
pick the fall speed, construct the new `Piece` and bump its kind's
counter. -/
def spawnStage (cfg : Config) (seed : SpawnSeed) (s : GameState) : Option GameState :=
  match s.player with
  | some _ => some s
  | none =>
      let types := buildPieceTypes cfg.centipede s.current.heads s.current.arms s.current.legs
      let speed :=
        if cfg.speedRamp then SPEED_MIN + Int.fdiv s.current.snowmen SPEED_BUMP
        else SPEED_MIN
      (pieceInit types speed s.nextId seed).map fun pl =>
        { s with
           player := some pl
           current := s.current.add pl.piece 1
           nextId := s.nextId + 1 }

def frameStep (cfg : Config) (inp : FrameInput) (s : GameState) : Option GameState :=
  (spawnStage cfg inp.spawnSeed s).bind fun s1 =>
    s1.player.bind fun pl =>
      let pg := getInput pl inp.events
      let cs := collideStep cfg.centipede inp.hitIds pg.1 s1
      let s2 := { cs.2 with pieces := cs.2.pieces.map pieceUpdate }
      let pl2 := pieceUpdate cs.1
      (landStep pl2 s2).map fun s3 =>
        { s3 with game_over := pg.2 || (!cfg.infinite && s3.misses ≥ MISSES_MAX) }

/-- Number of pieces of kind `k` currently falling or landed with their
kind field still `k` (a landed piece that received an attachment has
been reclassified to `connected`, so it is not counted). -/
def inFlightCount (s : GameState) (k : Kind) : Nat :=
  (match s.player with
   | some p => if p.piece == k then 1 else 0
   | none => 0)
    + (s.pieces.filter fun q => q.piece == k).length

/-- `True` when the frame's event queue contains a window-close or
escape keypress (the two events that set `game_over` in `get_input`). -/
def quitRequested (events : List PEvent) : Bool :=
  events.any fun e => e == PEvent.quit || e == PEvent.keyDown PKey.escape

/-! ## Concrete fixtures (sample runs used by the closed theorems) -/

def cfg0 : Config := { centipede := false, infinite := false, speedRamp := false }

/-- Frame 1 inputs: no events, no geometric hits; the spawn draws land
on a legs piece (tall sprite, so it lands within the frame). -/
def inp1 : FrameInput :=
  { spawnSeed := { kindSeed := 0, height := 2000, xSeed := 0, limitSeed := 1000 }
    events := []
    hitIds := [] }

/-- Frame 2 inputs: the spawn draws land on an arms piece and the landed
legs sprite (id 0) geometrically collides with it. -/
def inp2 : FrameInput :=
  { spawnSeed := { kindSeed := 1, height := 2000, xSeed := 0, limitSeed := 0 }
    events := []
    hitIds := [0] }

/-- Frame inputs whose event queue holds a window-close event. -/
def inpQuit : FrameInput :=
  { spawnSeed := { kindSeed := 0, height := 2000, xSeed := 0, limitSeed := 1000 }
    events := [PEvent.quit]
    hitIds := [] }

/-- The landed legs sprite produced by frame 1 of the sample run. -/
def legs0 : Piece :=
  { pid := 0, piece := Kind.legs, speed := 6, height := 2000,
    x_pos := 60, y_pos := -994, x_inc := 0, y_inc := 0,
    limit := -1400, status := none }

/-- The arms piece spawned in frame 2 of the sample run. -/
def plw : Piece :=
  { pid := 1, piece := Kind.arms, speed := 6, height := 2000,
    x_pos := 60, y_pos := -1000, x_inc := 0, y_inc := 6,
    limit := 530, status := none }

/-- The state after running `inp1` from `initState` (the legs piece has
landed as a chain base). -/
def s1val : GameState :=
  { score := 0
    misses := 0
    current := { heads := 0, arms := 0, legs := 1, snowmen := 0 }
    connected := [(0, none)]
    headsList := []
    pieces := [legs0]
    player := none
    game_over := false
    nextId := 1 }

/-! ## Fixtures for the eviction scenario: completed chain
legs 9 ← arms 8 ← head 10 (oldest), a second completed head 11 with its
base legs 13, and a third head 12 about to settle. -/

def legsA : Piece :=
  { pid := 9, piece := Kind.connected, speed := 6, height := 100,
    x_pos := 60, y_pos := 500, x_inc := 0, y_inc := 0, limit := 550, status := none }

def armsA : Piece :=
  { pid := 8, piece := Kind.connected, speed := 6, height := 100,
    x_pos := 60, y_pos := 420, x_inc := 0, y_inc := 0, limit := 530,
    status := some Status.stuck }

def headA : Piece :=
  { pid := 10, piece := Kind.heads, speed := 6, height := 100,
    x_pos := 60, y_pos := 340, x_inc := 0, y_inc := 0, limit := 530,
    status := some Status.stuck }

def legsB : Piece :=
  { pid := 13, piece := Kind.connected, speed := 6, height := 100,
    x_pos := 300, y_pos := 500, x_inc := 0, y_inc := 0, limit := 550, status := none }

def armsB : Piece :=
  { pid := 7, piece := Kind.connected, speed := 6, height := 100,
    x_pos := 300, y_pos := 460, x_inc := 0, y_inc := 0, limit := 530,
    status := some Status.stuck }

def headB : Piece :=
  { pid := 11, piece := Kind.heads, speed := 6, height := 100,
    x_pos := 300, y_pos := 420, x_inc := 0, y_inc := 0, limit := 530,
    status := some Status.stuck }

def pNewHead : Piece :=
  { pid := 12, piece := Kind.heads, speed := 6, height := 100,
    x_pos := 300, y_pos := 340, x_inc := 0, y_inc := 4, limit := 530,
    status := some Status.stuck }

def sEvict : GameState :=
  { score := 250
    misses := 1
    current := { heads := 3, arms := 3, legs := 2, snowmen := 2 }
    connected := [(9, none), (8, some 9), (10, some 8), (13, none), (7, some 13), (11, some 7)]
    headsList := [10, 11]
    pieces := [legsA, armsA, headA, legsB, armsB, headB]
    player := none
    game_over := false
    nextId := 14 }

/-! # Theorems -/

theorem randint_mem (a b : Int) (r : Nat) (hab : a ≤ b) :
    a ≤ randint a b r ∧ randint a b r ≤ b := by
  have hpos : 0 < (b - a + 1).toNat := by omega
  have hlt : r % (b - a + 1).toNat < (b - a + 1).toNat := Nat.mod_lt _ hpos
  unfold randint
  omega

/-- C5: the spawn candidate list built when no piece is active equals
exactly the ordered rules of the specification — Arms twice if centipede
mode else nothing; Legs once if legs − heads < CLUTTER; in centipede
mode Heads (legs−heads) times if legs > heads and Legs twice more if
legs = heads; otherwise Arms (legs−arms) times if legs > arms and Heads
(arms−heads) times if arms > heads.  (The subsequent uniform draw from
the list is the external `random.choice`, modelled by `listChoice`.) -/
theorem buildPieceTypes_eq_specRules (centipede : Bool) (heads arms legs : Int) :
    buildPieceTypes centipede heads arms legs = specSpawnRules centipede heads arms legs := by
  unfold buildPieceTypes specSpawnRules
  cases centipede <;> split_ifs <;> simp [List.replicate]

/-- C10: for all non-negative counter values and in both modes, the
spawn candidate list is non-empty, so the uniform draw of the next kind
is always well-defined. -/
theorem buildPieceTypes_ne_nil (centipede : Bool) (heads arms legs : Int)
    (hh : 0 ≤ heads) (ha : 0 ≤ arms) (hl : 0 ≤ legs) :
    buildPieceTypes centipede heads arms legs ≠ [] := by
  have hlen : 0 < (buildPieceTypes centipede heads arms legs).length := by
    unfold buildPieceTypes
    cases centipede <;> split_ifs <;>
      simp_all [CLUTTER, List.length_append, List.length_replicate] <;> omega
  intro hnil
  rw [hnil] at hlen
  simp at hlen

theorem buildPieceTypes_ne_nil_witness : buildPieceTypes false 0 0 0 ≠ [] :=
  buildPieceTypes_ne_nil false 0 0 0 (by decide) (by decide) (by decide)

/-- C8: a freshly spawned piece of any kind has x drawn in
[GUTTER_LEFT, GUTTER_RIGHT], y at half the sprite height above the top
of the screen (Python floor division: `-height // 2`), zero horizontal
velocity, and vertical velocity equal to the base speed capped at
SPEED_MAX. -/
theorem pieceInit_spawn_fields (possible : List Kind) (speed0 : Int) (pid : Nat)
    (seed : SpawnSeed) (p : Piece) (hp : pieceInit possible speed0 pid seed = some p) :
    GUTTER_LEFT ≤ p.x_pos ∧ p.x_pos ≤ GUTTER_RIGHT ∧
    p.y_pos = Int.fdiv (-seed.height) 2 ∧
    p.x_inc = 0 ∧ p.y_inc = min speed0 SPEED_MAX := by
  unfold pieceInit at hp
  rw [Option.map_eq_some'] at hp
  obtain ⟨k, hk, rfl⟩ := hp
  have hab : GUTTER_LEFT ≤ GUTTER_RIGHT := by decide
  refine ⟨(randint_mem _ _ _ hab).1, (randint_mem _ _ _ hab).2, rfl, rfl, ?_⟩
  show (if speed0 > SPEED_MAX then SPEED_MAX else speed0) = min speed0 SPEED_MAX
  rw [Int.min_def]
  split_ifs <;> omega

theorem pieceInit_spawn_fields_witness :
    GUTTER_LEFT ≤ ({ pid := 0, piece := Kind.legs, speed := 6, height := 100,
                     x_pos := 60, y_pos := -50, x_inc := 0, y_inc := 6,
                     limit := 550, status := none } : Piece).x_pos ∧
    ({ pid := 0, piece := Kind.legs, speed := 6, height := 100,
       x_pos := 60, y_pos := -50, x_inc := 0, y_inc := 6,
       limit := 550, status := none } : Piece).x_pos ≤ GUTTER_RIGHT ∧
    ({ pid := 0, piece := Kind.legs, speed := 6, height := 100,
       x_pos := 60, y_pos := -50, x_inc := 0, y_inc := 6,
       limit := 550, status := none } : Piece).y_pos =
      Int.fdiv (-(100 : Int)) 2 ∧
    ({ pid := 0, piece := Kind.legs, speed := 6, height := 100,
       x_pos := 60, y_pos := -50, x_inc := 0, y_inc := 6,
       limit := 550, status := none } : Piece).x_inc = 0 ∧
    ({ pid := 0, piece := Kind.legs, speed := 6, height := 100,
       x_pos := 60, y_pos := -50, x_inc := 0, y_inc := 6,
       limit := 550, status := none } : Piece).y_inc = min 6 SPEED_MAX :=
  pieceInit_spawn_fields [Kind.legs] 6 0
    { kindSeed := 0, height := 100, xSeed := 0, limitSeed := 0 } _ (by decide)

/-- C9 (amended): during a falling piece's per-frame update, if its y
position exceeds SCREEN_HEIGHT minus the slow-zone band of height
(4 − kindIndex) * GUTTER_BOTTOM and its vertical velocity is nonzero,
the vertical velocity is reset to the base speed before velocity is
added to position.  (Amended: the bottom-most kind, Legs, gets the
SHORTEST band — index 2 gives 2·GUTTER_BOTTOM versus 4·GUTTER_BOTTOM
for Heads — not the taller one.) -/
theorem pieceUpdate_slow_zone (p : Piece)
    (hin : Kind.inPieces p.piece = true)
    (hzone : p.y_pos > SCREEN_HEIGHT - (4 - kindIndex p.piece) * GUTTER_BOTTOM)
    (hmove : p.y_inc ≠ 0) :
    (pieceUpdate p).y_inc = p.speed ∧ (pieceUpdate p).y_pos = p.y_pos + p.speed := by
  unfold pieceUpdate
  have hmove' : (p.y_inc != 0) = true := by simpa using hmove
  split_ifs <;> simp_all

/-- Closed instance of the slow-zone reset: a heads piece at y = 350
with vertical velocity at the maximum is inside its band, so the update
resets velocity to the base speed. -/
theorem pieceUpdate_slow_zone_witness :
    (pieceUpdate { pid := 0, piece := Kind.heads, speed := 6, height := 100,
                   x_pos := 100, y_pos := 350, x_inc := 0, y_inc := 16,
                   limit := 530, status := none }).y_inc = 6 ∧
    (pieceUpdate { pid := 0, piece := Kind.heads, speed := 6, height := 100,
                   x_pos := 100, y_pos := 350, x_inc := 0, y_inc := 16,
                   limit := 530, status := none }).y_pos = 350 + 6 :=
  pieceUpdate_slow_zone _ (by decide) (by decide) (by decide)

/-- C9 counterexample: the claim's gloss "the bottom-most kind (Legs)
gets the taller band" is false — at y = 350 with maximum vertical
velocity a Heads piece is inside its slow band and is reset to base
speed, while a Legs piece at the same position is not (its band,
2·GUTTER_BOTTOM, is strictly shorter than the Heads band,
4·GUTTER_BOTTOM). -/
theorem slow_zone_legs_band_shorter :
    (pieceUpdate { pid := 0, piece := Kind.heads, speed := 6, height := 100,
                   x_pos := 100, y_pos := 350, x_inc := 0, y_inc := 16,
                   limit := 530, status := none }).y_inc = 6 ∧
    (pieceUpdate { pid := 1, piece := Kind.legs, speed := 6, height := 100,
                   x_pos := 100, y_pos := 350, x_inc := 0, y_inc := 16,
                   limit := 530, status := none }).y_inc = 16 ∧
    (4 - kindIndex Kind.legs) * GUTTER_BOTTOM < (4 - kindIndex Kind.heads) * GUTTER_BOTTOM := by
  decide

theorem findAttach_first (centipede : Bool) (pk : Kind) (pre : List Piece) (q : Piece)
    (post : List Piece) (hpre : ∀ r ∈ pre, canAttach centipede pk r.piece = false)
    (hq : canAttach centipede pk q.piece = true) :
    findAttach centipede pk (pre ++ q :: post) = some q := by
  induction pre with
  | nil => simp [findAttach, hq]
  | cons r rest ih =>
      have hr := hpre r (by simp)
      simp only [List.cons_append, findAttach, hr, Bool.false_eq_true, if_false]
      exact ih fun x hx => hpre x (by simp [hx])

theorem findAttach_none (centipede : Bool) (pk : Kind) (hits : List Piece)
    (h : ∀ r ∈ hits, canAttach centipede pk r.piece = false) :
    findAttach centipede pk hits = none := by
  induction hits with
  | nil => rfl
  | cons r rest ih =>
      have hr := h r (by simp)
      simp only [findAttach, hr, Bool.false_eq_true, if_false]
      exact ih fun x hx => h x (by simp [hx])

/-- C1: a falling piece attaches to a landed piece iff the pair is
(Head, Arms), (Arms, Legs) or — in centipede mode only — (Arms, Arms);
a falling Legs never attaches, and a reclassified (`connected`) landed
piece never satisfies the predicate again.  On the first hit satisfying
the predicate: the falling piece's status becomes stuck, the landed
piece is reclassified to `connected`, the edge falling → landed is
recorded in the attachment map, the score rises by POINTS, and no
further candidate is scanned; with no satisfying hit, nothing changes. -/
theorem collideStep_spec (centipede : Bool) (pl : Piece) (s : GameState)
    (hitIds : List Nat) :
    (∀ pk lk, canAttach centipede pk lk = true ↔
        (pk = Kind.heads ∧ lk = Kind.arms) ∨ (pk = Kind.arms ∧ lk = Kind.legs)
          ∨ (centipede = true ∧ pk = Kind.arms ∧ lk = Kind.arms))
    ∧ (∀ lk, canAttach centipede Kind.legs lk = false)
    ∧ (∀ pk, canAttach centipede pk Kind.connected = false)
    ∧ (∀ pre q post,
        s.pieces.filter (fun r => hitIds.contains r.pid) = pre ++ q :: post →
        (∀ r ∈ pre, canAttach centipede pl.piece r.piece = false) →
        canAttach centipede pl.piece q.piece = true →
        collideStep centipede hitIds pl s =
          ({ pl with status := some Status.stuck },
           { s with
              pieces := s.pieces.map fun r =>
                if r.pid == q.pid then { r with piece := Kind.connected } else r
              connected := dictAssign s.connected pl.pid (some q.pid)
              score := s.score + POINTS }))
    ∧ ((∀ r ∈ s.pieces.filter (fun r => hitIds.contains r.pid),
          canAttach centipede pl.piece r.piece = false) →
        collideStep centipede hitIds pl s = (pl, s)) := by
  refine ⟨?_, ?_, ?_, ?_, ?_⟩
  · intro pk lk; cases pk <;> cases lk <;> cases centipede <;> decide
  · intro lk; cases lk <;> cases centipede <;> decide
  · intro pk; cases pk <;> cases centipede <;> decide
  · intro pre q post hfil hpre hq
    unfold collideStep
    rw [hfil, findAttach_first centipede pl.piece pre q post hpre hq]
  · intro hall
    unfold collideStep
    rw [findAttach_none centipede pl.piece _ hall]

theorem collideStep_spec_witness :
    collideStep false [0] plw s1val =
      ({ plw with status := some Status.stuck },
       { s1val with
          pieces := s1val.pieces.map fun r =>
            if r.pid == legs0.pid then { r with piece := Kind.connected } else r
          connected := dictAssign s1val.connected plw.pid (some legs0.pid)
          score := s1val.score + POINTS }) :=
  (collideStep_spec false plw s1val [0]).2.2.2.1 [] legs0 []
    (by decide) (by decide) (by decide)

/-- C3: a falling Heads or Arms piece that passes its fall-limit without
having attached is a miss: the miss counter goes up by exactly 1, the
kind's counter goes down by exactly 1 (the other counters are
untouched), the score drops by exactly POINTS, and the piece is
discarded — the landed group, the attachment map and the completed-heads
list are unchanged.  The landing resolution reads no mode flag, so this
holds in every mode. -/
theorem landStep_miss (p : Piece) (s : GameState)
    (hk : p.piece = Kind.heads ∨ p.piece = Kind.arms)
    (hns : p.status ≠ some Status.stuck)
    (hy : p.y_pos > p.limit) :
    landStep p s =
      some { s with
              current := s.current.add p.piece (-1)
              misses := s.misses + 1
              score := s.score - POINTS
              player := none } ∧
    (s.current.add p.piece (-1)).get p.piece = s.current.get p.piece - 1 ∧
    (∀ k, k ≠ p.piece → (s.current.add p.piece (-1)).get k = s.current.get k) := by
  have hbeq : (p.status == some Status.stuck) = false := by
    simpa using hns
  refine ⟨?_, ?_, ?_⟩
  · unfold landStep
    rcases hk with hk | hk <;> simp [hbeq, hk, hy]
  · rcases hk with hk | hk <;> simp [hk, Current.add, Current.get] <;> omega
  · intro k hkk
    rcases hk with hk | hk <;> rw [hk] at hkk ⊢ <;> cases k <;>
      simp_all [Current.add, Current.get]

theorem landStep_miss_witness :
    landStep { pid := 5, piece := Kind.arms, speed := 6, height := 100,
               x_pos := 60, y_pos := 540, x_inc := 0, y_inc := 6,
               limit := 530, status := none } s1val =
      some { s1val with
              current := s1val.current.add Kind.arms (-1)
              misses := s1val.misses + 1
              score := s1val.score - POINTS
              player := none } :=
  (landStep_miss _ s1val (Or.inr rfl) (by decide) (by decide)).1

theorem dictLookup_dictAssign (m : List (Nat × Option Nat)) (k : Nat) (v : Option Nat) :
    dictLookup (dictAssign m k v) k = some v := by
  induction m with
  | nil => simp [dictAssign, dictLookup]
  | cons kv rest ih =>
      obtain ⟨k', v'⟩ := kv
      by_cases hk : (k' == k) = true
      · simp [dictAssign, dictLookup, hk]
      · simp [dictAssign, dictLookup, hk, ih]

/-- C4: a falling Legs piece that passes its fall-limit is added to the
landed group as a new chain base — its attachment-map entry is `None` —
with both velocities zeroed, and neither the miss counter, the score,
the per-kind counters nor the completed-heads list changes.  The landing
resolution reads no mode flag, so this holds in every mode. -/
theorem landStep_legs_land (p : Piece) (s : GameState)
    (hk : p.piece = Kind.legs) (hy : p.y_pos > p.limit) :
    landStep p s =
      some { s with
              connected := dictAssign s.connected p.pid none
              pieces := s.pieces ++ [{ p with x_inc := 0, y_inc := 0 }]
              player := none } ∧
    dictLookup (dictAssign s.connected p.pid none) p.pid = some none := by
  refine ⟨?_, dictLookup_dictAssign ..⟩
  unfold landStep
  simp [hk, hy]

theorem landStep_legs_land_witness :
    landStep { pid := 7, piece := Kind.legs, speed := 6, height := 100,
               x_pos := 60, y_pos := 560, x_inc := 0, y_inc := 6,
               limit := 550, status := none } s1val =
      some { s1val with
              connected := dictAssign s1val.connected 7 none
              pieces := s1val.pieces ++
                [{ pid := 7, piece := Kind.legs, speed := 6, height := 100,
                   x_pos := 60, y_pos := 560, x_inc := 0, y_inc := 0,
                   limit := 550, status := none }]
              player := none } :=
  (landStep_legs_land _ s1val rfl (by decide)).1

theorem evictWalk_eq_chain (m : List (Nat × Option Nat)) :
    ∀ (fuel : Nat) (oh : Option Nat) (ps : List Piece),
      evictWalk m fuel oh ps =
        (chainFrom m fuel oh).map (fun ch => ch.foldl removeSprite ps) := by
  intro fuel
  induction fuel with
  | zero =>
      intro oh ps
      cases oh <;> simp [evictWalk, chainFrom]
  | succ n ih =>
      intro oh ps
      cases oh with
      | none => simp [evictWalk, chainFrom]
      | some h =>
          cases hdl : dictLookup m h with
          | none => simp [evictWalk, chainFrom, hdl]
          | some nxt =>
              simp only [evictWalk, chainFrom, hdl, Option.some_bind, ih, Option.map_map]
              cases chainFrom m n nxt <;> simp [List.foldl_cons]

theorem landStep_headsList_le (p : Piece) (s : GameState) :
    ∀ s', s.headsList.length ≤ SNOWMEN_MAX → landStep p s = some s' →
      s'.headsList.length ≤ SNOWMEN_MAX := by
  intro s' hlen hstep
  · simp only [landStep] at hstep
    split at hstep
    · split at hstep
      · simp only [Option.some.injEq] at hstep
        subst hstep
        simpa using hlen
      · split at hstep
        · split at hstep
          · split at hstep
            · simp at hstep
            · rename_i hd tl heq
              rw [Option.map_eq_some'] at hstep
              obtain ⟨ps', hps, rfl⟩ := hstep
              have hlen2 := congrArg List.length heq
              simp only [List.length_append, List.length_cons, List.length_nil] at hlen2
              show tl.length ≤ SNOWMEN_MAX
              omega
          · rename_i hcap
            simp only [Option.some.injEq] at hstep
            subst hstep
            show (s.headsList ++ [p.pid]).length ≤ SNOWMEN_MAX
            simp only [not_lt, List.length_append, List.length_cons, List.length_nil] at hcap ⊢
            omega
        · simp only [Option.some.injEq] at hstep
          subst hstep
          simpa using hlen
    · split at hstep
      · simp only [Option.some.injEq] at hstep
        subst hstep
        simpa using hlen
      · simp only [Option.some.injEq] at hstep
        subst hstep
        simpa using hlen

theorem spawnStage_headsList (cfg : Config) (seed : SpawnSeed) (s s1 : GameState)
    (h : spawnStage cfg seed s = some s1) : s1.headsList = s.headsList := by
  unfold spawnStage at h
  split at h
  · simp only [Option.some.injEq] at h
    subst h; rfl
  · rw [Option.map_eq_some'] at h
    obtain ⟨pl, hpl, rfl⟩ := h
    rfl

theorem collideStep_headsList (centipede : Bool) (hitIds : List Nat) (pl : Piece)
    (s : GameState) : (collideStep centipede hitIds pl s).2.headsList = s.headsList := by
  unfold collideStep
  cases findAttach centipede pl.piece
      (s.pieces.filter fun r => hitIds.contains r.pid) <;> rfl

/-- C2: the completed-heads list never holds more than SNOWMEN_MAX heads
after a frame is processed, and when a stuck head settles while the list
is already at the maximum, the oldest head is dropped from the list and
every piece reachable from it through the attachment map (head, arms...,
base legs, whose entry is `None`) is removed from the landed group in
that same resolution. -/
theorem snowmen_cap :
    (∀ (cfg : Config) (inp : FrameInput) (s s' : GameState),
        s.headsList.length ≤ SNOWMEN_MAX → frameStep cfg inp s = some s' →
        s'.headsList.length ≤ SNOWMEN_MAX)
    ∧ (∀ (p : Piece) (s : GameState) (h h2 : Nat) (ch : List Nat),
        p.status = some Status.stuck → p.piece = Kind.heads →
        s.headsList = [h, h2] →
        chainFrom s.connected (s.connected.length + 1) (some h) = some ch →
        landStep p s =
          some { s with
                  headsList := [h2, p.pid]
                  pieces := ch.foldl removeSprite
                    (s.pieces ++ [{ p with x_inc := 0, y_inc := 0 }])
                  current := { s.current with snowmen := s.current.snowmen + 1 }
                  player := none }) := by
  constructor
  · intro cfg inp s s' hlen hstep
    unfold frameStep at hstep
    rw [Option.bind_eq_some] at hstep
    obtain ⟨s1, hs1, hstep⟩ := hstep
    rw [Option.bind_eq_some] at hstep
    obtain ⟨pl, hpl, hstep⟩ := hstep
    rw [Option.map_eq_some'] at hstep
    obtain ⟨s3, hs3, rfl⟩ := hstep
    have h1 : s1.headsList.length ≤ SNOWMEN_MAX := by
      rw [spawnStage_headsList cfg inp.spawnSeed s s1 hs1]; exact hlen
    have h2 := landStep_headsList_le
      (pieceUpdate (collideStep cfg.centipede inp.hitIds (getInput pl inp.events).1 s1).1)
      { (collideStep cfg.centipede inp.hitIds (getInput pl inp.events).1 s1).2 with
          pieces := (collideStep cfg.centipede inp.hitIds
            (getInput pl inp.events).1 s1).2.pieces.map pieceUpdate }
      s3 (by simpa [collideStep_headsList] using h1) hs3
    simpa using h2
  · intro p s h h2 ch hst hk hhl hch
    have hb1 : (p.status == some Status.stuck) = true := by simp [hst]
    simp only [landStep, hb1, Bool.true_or, if_true, hhl, hk]
    simp only [evictWalk_eq_chain]
    simp [hch, SNOWMEN_MAX]

theorem landStep_snowmen_cap_witness :
    landStep pNewHead sEvict =
      some { sEvict with
              headsList := [11, pNewHead.pid]
              pieces := [10, 8, 9].foldl removeSprite
                (sEvict.pieces ++ [{ pNewHead with x_inc := 0, y_inc := 0 }])
              current := { sEvict.current with snowmen := sEvict.current.snowmen + 1 }
              player := none } :=
  snowmen_cap.2 pNewHead sEvict 10 11 [10, 8, 9]
    (by decide) (by decide) (by decide) (by decide)

theorem getInputStep_snd (p : Piece) (go : Bool) (e : PEvent) :
    (getInputStep (p, go) e).2 =
      (go || (e == PEvent.quit || e == PEvent.keyDown PKey.escape)) := by
  cases e with
  | quit => simp [getInputStep]
  | keyDown k => cases k <;> simp [getInputStep]
  | keyUp k => cases k <;> simp [getInputStep] <;> split_ifs <;> simp

theorem getInput_foldl_snd (events : List PEvent) :
    ∀ (p : Piece) (go : Bool),
      (events.foldl getInputStep (p, go)).2 = (go || quitRequested events) := by
  induction events with
  | nil => intro p go; simp [quitRequested]
  | cons e rest ih =>
      intro p go
      have h2 := getInputStep_snd p go e
      rcases hgs : getInputStep (p, go) e with ⟨p', go'⟩
      rw [hgs] at h2
      simp only [] at h2
      rw [List.foldl_cons, hgs, ih p' go', h2]
      simp [quitRequested, Bool.or_assoc]

/-- `get_input` reports game over exactly when the frame's event queue
holds a window-close event or an escape keypress. -/
theorem getInput_quit (p : Piece) (events : List PEvent) :
    (getInput p events).2 = quitRequested events := by
  unfold getInput
  rw [getInput_foldl_snd events p false]
  simp

/-- C6 (amended): at the end of every frame, the game-over flag equals
"a window-close or escape event arrived this frame, OR the game is in
non-infinite mode and the miss counter has reached MISSES_MAX".  Thus
in non-infinite mode, absent a quit or escape input, the game ends
exactly when the miss counter reaches MISSES_MAX and never before;
a quit or escape input, however, ends it at any miss count. -/
theorem frameStep_game_over (cfg : Config) (inp : FrameInput) (s s' : GameState)
    (hstep : frameStep cfg inp s = some s') :
    s'.game_over =
      (quitRequested inp.events
        || (!cfg.infinite && decide (s'.misses ≥ MISSES_MAX))) := by
  unfold frameStep at hstep
  rw [Option.bind_eq_some] at hstep
  obtain ⟨s1, hs1, hstep⟩ := hstep
  rw [Option.bind_eq_some] at hstep
  obtain ⟨pl, hpl, hstep⟩ := hstep
  rw [Option.map_eq_some'] at hstep
  obtain ⟨s3, hs3, rfl⟩ := hstep
  simp [getInput_quit]

theorem frameStep_game_over_witness :
    s1val.game_over =
      (quitRequested inp1.events
        || (!cfg0.infinite && decide (s1val.misses ≥ MISSES_MAX))) :=
  frameStep_game_over cfg0 inp1 initState s1val (by decide)

/-- C6 counterexample: in non-infinite mode a window-close event ends
the game in a frame where the miss counter is still 0, strictly below
MISSES_MAX — the game can end before the miss counter reaches the
limit. -/
theorem frameStep_quit_ends_before_misses :
    (frameStep cfg0 inpQuit initState).map (fun s => (s.game_over, s.misses)) =
        some (true, 0)
      ∧ cfg0.infinite = false ∧ (0 : Int) < MISSES_MAX := by
  decide

/-- C7 counterexample: after two frames from the initial state — a legs
piece lands, then an arms piece attaches to it — the legs counter is
still 1 while no legs-kind piece is falling or landed-unconnected (the
landed legs was reclassified `connected`), so the counter does not equal
that count. -/
theorem current_count_mismatch :
    ((frameStep cfg0 inp1 initState).bind (frameStep cfg0 inp2)).map
        (fun s => (s.current.get Kind.legs, (inFlightCount s Kind.legs : Int))) =
      some (1, 0) := by
  decide

/-- C7 (amended): the per-kind counters are incremented at spawn and
decremented only on a miss — an attachment leaves every counter
unchanged, the landing resolution leaves the heads/arms/legs counters
unchanged in every non-miss branch (including an eviction), and when the
miss counter is bumped the missed piece's kind is decremented by exactly
one.  The counter therefore counts pieces spawned minus pieces missed of
that kind, not pieces currently falling-or-landed-but-unconnected. -/
theorem current_changes_only_on_miss :
    (∀ (centipede : Bool) (hitIds : List Nat) (pl : Piece) (s : GameState),
        (collideStep centipede hitIds pl s).2.current = s.current)
    ∧ (∀ (p : Piece) (s s' : GameState), landStep p s = some s' →
        (p.status = some Status.stuck ∨ p.piece = Kind.legs ∨ ¬(p.y_pos > p.limit)) →
        ∀ k, Kind.inPieces k = true → s'.current.get k = s.current.get k)
    ∧ (∀ (p : Piece) (s s' : GameState), landStep p s = some s' →
        s'.misses = s.misses + 1 →
        s'.current = s.current.add p.piece (-1)) := by
  refine ⟨?_, ?_, ?_⟩
  · intro centipede hitIds pl s
    unfold collideStep
    cases findAttach centipede pl.piece
        (s.pieces.filter fun r => hitIds.contains r.pid) <;> rfl
  · intro p s s' hstep hnm k hkin
    simp only [landStep] at hstep
    split at hstep
    · split at hstep
      · simp only [Option.some.injEq] at hstep
        subst hstep; rfl
      · split at hstep
        · split at hstep
          · split at hstep
            · simp at hstep
            · rw [Option.map_eq_some'] at hstep
              obtain ⟨ps', hps, rfl⟩ := hstep
              cases k <;> simp [Current.get]
          · simp only [Option.some.injEq] at hstep
            subst hstep
            cases k <;> simp [Current.get]
        · simp only [Option.some.injEq] at hstep
          subst hstep; rfl
    · rename_i hfirst
      split at hstep
      · rename_i hmiss2
        exfalso
        simp only [Bool.or_eq_true, Bool.and_eq_true, beq_iff_eq, bne_iff_ne,
          decide_eq_true_eq, not_or, ne_eq] at hfirst hmiss2
        rcases hnm with hnm | hnm | hnm
        · exact hfirst.1 hnm
        · exact hmiss2.1 hnm
        · exact hnm hmiss2.2
      · simp only [Option.some.injEq] at hstep
        subst hstep; rfl
  · intro p s s' hstep hmiss
    simp only [landStep] at hstep
    split at hstep
    · split at hstep
      · simp only [Option.some.injEq] at hstep
        subst hstep; simp at hmiss
      · split at hstep
        · split at hstep
          · split at hstep
            · simp at hstep
            · rw [Option.map_eq_some'] at hstep
              obtain ⟨ps', hps, rfl⟩ := hstep
              simp at hmiss
          · simp only [Option.some.injEq] at hstep
            subst hstep; simp at hmiss
        · simp only [Option.some.injEq] at hstep
          subst hstep; simp at hmiss
    · split at hstep
      · simp only [Option.some.injEq] at hstep
        subst hstep; rfl
      · simp only [Option.some.injEq] at hstep
        subst hstep; simp at hmiss

theorem current_changes_only_on_miss_witness :
    ({ s1val with
        current := s1val.current.add Kind.arms (-1)
        misses := s1val.misses + 1
        score := s1val.score - POINTS
        player := none } : GameState).current =
      s1val.current.add
        ({ pid := 5, piece := Kind.arms, speed := 6, height := 100,
           x_pos := 60, y_pos := 540, x_inc := 0, y_inc := 6,
           limit := 530, status := none } : Piece).piece (-1) :=
  current_changes_only_on_miss.2.2
    { pid := 5, piece := Kind.arms, speed := 6, height := 100,
      x_pos := 60, y_pos := 540, x_inc := 0, y_inc := 6,
      limit := 530, status := none }
    s1val _ (by decide) (by decide)

end Snowman
